import Mathlib

/-!
# qml-zero-copy-example: the frame-delivery path of `v4l2source.cpp`

A shallow embedding of `src/v4l2source.cpp`: the two format translators, the
two `QAbstractVideoBuffer` adapters, the sample bridge `on_new_sample`, the
render-thread tick `sync()` and the pipeline controller `start()`/`stop()`.

Conventions.
* C enumerations of external libraries (`GstVideoFormat`, DRM fourcc codes,
  EGL attribute names) are embedded as integers with the values of the
  library headers; only their distinctness matters for the results below.
* A call into an external library that the source makes for its effect is
  recorded as an `Event` in a trace, in program order.
* A result that an external library computes (the pulled sample, whether the
  surface accepted `start`, a plane mapping) is an explicit input.
-/

namespace V4L2

/-! ## Machine integers -/

/-- Conversion of an integer value to a 32-bit signed `int` (`EGLint`, `gint`),
as performed by a C assignment from a wider or unsigned type. -/
def toInt32 (x : Int) : Int := (x + 2147483648) % 4294967296 - 2147483648

/-! ## Format Translator -/

/-! The type `GstVideoFormat` (gst/video/video-format.h) is a C enumeration; a
value of it is embedded as the natural number of its enumerator. -/

def GST_VIDEO_FORMAT_UNKNOWN : Nat := 0
def GST_VIDEO_FORMAT_I420 : Nat := 2
def GST_VIDEO_FORMAT_YV12 : Nat := 3
def GST_VIDEO_FORMAT_YUY2 : Nat := 4
def GST_VIDEO_FORMAT_UYVY : Nat := 5
def GST_VIDEO_FORMAT_BGRx : Nat := 8
def GST_VIDEO_FORMAT_xRGB : Nat := 9
def GST_VIDEO_FORMAT_RGBA : Nat := 11
def GST_VIDEO_FORMAT_ARGB : Nat := 13
def GST_VIDEO_FORMAT_RGB : Nat := 15
def GST_VIDEO_FORMAT_BGR : Nat := 16
def GST_VIDEO_FORMAT_YVYU : Nat := 19
def GST_VIDEO_FORMAT_NV12 : Nat := 23
def GST_VIDEO_FORMAT_GRAY8 : Nat := 25
def GST_VIDEO_FORMAT_I420_10LE : Nat := 43
def GST_VIDEO_FORMAT_NV16 : Nat := 51

/-- The macro `fourcc_code(a, b, c, d)` of libdrm/drm_fourcc.h, on character codes. -/
def fourcc_code (a b c d : Char) : Int :=
  (a.toNat + b.toNat * 256 + c.toNat * 65536 + d.toNat * 16777216 : Nat)

def DRM_FORMAT_R8 : Int := fourcc_code 'R' '8' ' ' ' '
def DRM_FORMAT_RGB888 : Int := fourcc_code 'R' 'G' '2' '4'
def DRM_FORMAT_BGR888 : Int := fourcc_code 'B' 'G' '2' '4'
def DRM_FORMAT_ARGB8888 : Int := fourcc_code 'A' 'R' '2' '4'
def DRM_FORMAT_RGBA8888 : Int := fourcc_code 'R' 'A' '2' '4'
def DRM_FORMAT_XBGR8888 : Int := fourcc_code 'X' 'B' '2' '4'
def DRM_FORMAT_BGRX8888 : Int := fourcc_code 'B' 'X' '2' '4'
def DRM_FORMAT_YUYV : Int := fourcc_code 'Y' 'U' 'Y' 'V'
def DRM_FORMAT_YVYU : Int := fourcc_code 'Y' 'V' 'Y' 'U'
def DRM_FORMAT_UYVY : Int := fourcc_code 'U' 'Y' 'V' 'Y'
def DRM_FORMAT_NV12 : Int := fourcc_code 'N' 'V' '1' '2'
def DRM_FORMAT_NV16 : Int := fourcc_code 'N' 'V' '1' '6'
def DRM_FORMAT_YUV420 : Int := fourcc_code 'Y' 'U' '1' '2'
def DRM_FORMAT_YVU420 : Int := fourcc_code 'Y' 'V' '1' '2'
def DRM_FORMAT_YVU422 : Int := fourcc_code 'Y' 'V' '1' '6'

/-- The enumerators of `QVideoFrame::PixelFormat` that the source mentions. -/
inductive PixelFormat
  | Format_Invalid
  | Format_ARGB32
  | Format_RGB32
  | Format_RGB24
  | Format_BGR32
  | Format_BGR24
  | Format_YV12
  | Format_UYVY
  | Format_YUYV
  | Format_NV12
  | Format_IMC3
  | Format_Y8
  deriving DecidableEq, Repr

open PixelFormat

/-- Function `gst_video_format_to_drm_code` (v4l2source.cpp:42-79). The
`default` arm logs "Unsupported format" and falls through to `return 0`. -/
def gst_video_format_to_drm_code (format : Nat) : Int :=
  if format = GST_VIDEO_FORMAT_I420 then DRM_FORMAT_YUV420
  else if format = GST_VIDEO_FORMAT_NV16 then DRM_FORMAT_NV16
  else if format = GST_VIDEO_FORMAT_NV12 then DRM_FORMAT_NV12
  else if format = GST_VIDEO_FORMAT_UYVY then DRM_FORMAT_UYVY
  else if format = GST_VIDEO_FORMAT_YVYU then DRM_FORMAT_YVYU
  else if format = GST_VIDEO_FORMAT_YUY2 then DRM_FORMAT_YUYV
  else if format = GST_VIDEO_FORMAT_YV12 then DRM_FORMAT_YVU422
  else if format = GST_VIDEO_FORMAT_RGB then DRM_FORMAT_RGB888
  else if format = GST_VIDEO_FORMAT_BGR then DRM_FORMAT_BGR888
  else if format = GST_VIDEO_FORMAT_ARGB then DRM_FORMAT_ARGB8888
  else if format = GST_VIDEO_FORMAT_RGBA then DRM_FORMAT_RGBA8888
  else if format = GST_VIDEO_FORMAT_xRGB then DRM_FORMAT_XBGR8888
  else if format = GST_VIDEO_FORMAT_BGRx then DRM_FORMAT_BGRX8888
  else if format = GST_VIDEO_FORMAT_GRAY8 then DRM_FORMAT_R8
  else if format = GST_VIDEO_FORMAT_I420_10LE then DRM_FORMAT_YUV420
  else 0

/-- Function `gst_video_format_to_qvideoformat` (v4l2source.cpp:81-113). The `default`
arm logs "Unsupported format" and falls through to `return Format_Invalid`. -/
def gst_video_format_to_qvideoformat (format : Nat) : PixelFormat :=
  if format = GST_VIDEO_FORMAT_I420 then Format_IMC3
  else if format = GST_VIDEO_FORMAT_NV12 then Format_NV12
  else if format = GST_VIDEO_FORMAT_UYVY then Format_UYVY
  else if format = GST_VIDEO_FORMAT_YUY2 then Format_YUYV
  else if format = GST_VIDEO_FORMAT_YV12 then Format_YV12
  else if format = GST_VIDEO_FORMAT_RGB then Format_RGB24
  else if format = GST_VIDEO_FORMAT_BGR then Format_BGR24
  else if format = GST_VIDEO_FORMAT_ARGB then Format_ARGB32
  else if format = GST_VIDEO_FORMAT_RGBA then Format_RGB32
  else if format = GST_VIDEO_FORMAT_xRGB then Format_ARGB32
  else if format = GST_VIDEO_FORMAT_BGRx then Format_BGR32
  else if format = GST_VIDEO_FORMAT_GRAY8 then Format_Y8
  else Format_Invalid

/-- The capture formats that only the DRM translator has a case for. -/
def drmOnlyFormats : List Nat :=
  [GST_VIDEO_FORMAT_NV16, GST_VIDEO_FORMAT_YVYU, GST_VIDEO_FORMAT_I420_10LE]

/-- The capture formats that both translators have a case for. -/
def commonFormats : List Nat :=
  [GST_VIDEO_FORMAT_I420, GST_VIDEO_FORMAT_NV12, GST_VIDEO_FORMAT_UYVY,
   GST_VIDEO_FORMAT_YUY2, GST_VIDEO_FORMAT_YV12, GST_VIDEO_FORMAT_RGB,
   GST_VIDEO_FORMAT_BGR, GST_VIDEO_FORMAT_ARGB, GST_VIDEO_FORMAT_RGBA,
   GST_VIDEO_FORMAT_xRGB, GST_VIDEO_FORMAT_BGRx, GST_VIDEO_FORMAT_GRAY8]

/-! ## Captured sample -/

/-- A `GstMemory` region of a buffer: either dmabuf memory, which carries a
file descriptor, or any other kind of memory. -/
inductive GstMemory
  | dmabuf (fd : Int)
  | system
  deriving DecidableEq, Repr

/-- The fields of `GstVideoMeta` that the source reads. `offset` and `stride`
are the C arrays `gsize offset[4]` and `gint stride[4]`, read at an index. -/
structure GstVideoMeta where
  format : Nat
  width : Nat
  height : Nat
  n_planes : Nat
  offset : Nat → Nat
  stride : Nat → Int

/-- A `GstBuffer`: its memory regions, and the video meta that
`gst_buffer_get_video_meta` finds on it. -/
structure GstBuffer where
  memory : List GstMemory
  videoMeta : GstVideoMeta

/-- Library call `gst_buffer_n_memory`. -/
def gst_buffer_n_memory (buffer : GstBuffer) : Nat := buffer.memory.length

/-- Library call `gst_buffer_peek_memory`: `NULL` for an index out of range. -/
def gst_buffer_peek_memory (buffer : GstBuffer) (idx : Nat) : Option GstMemory :=
  buffer.memory[idx]?

/-- Library call `gst_is_dmabuf_memory`: false on `NULL`. -/
def gst_is_dmabuf_memory : Option GstMemory → Bool
  | some (GstMemory.dmabuf _) => true
  | _ => false

/-- Library call `gst_dmabuf_memory_get_fd`: -1 unless the memory is dmabuf. -/
def gst_dmabuf_memory_get_fd : Option GstMemory → Int
  | some (GstMemory.dmabuf fd) => fd
  | _ => -1

/-- The loop `for (i = 0; i < n; i++) body(i)`: the state after `n` rounds. -/
def forLoop {σ : Type} (body : Nat → σ → σ) (init : σ) : Nat → σ
  | 0 => init
  | k + 1 => body k (forLoop body init k)

/-! ## Hardware Image Adapter -/

def EGL_NONE : Int := 0x3038
def EGL_HEIGHT : Int := 0x3056
def EGL_WIDTH : Int := 0x3057
def EGL_LINUX_DRM_FOURCC_EXT : Int := 0x3271
def EGL_DMA_BUF_PLANE0_FD_EXT : Int := 0x3272
def EGL_DMA_BUF_PLANE0_OFFSET_EXT : Int := 0x3273
def EGL_DMA_BUF_PLANE0_PITCH_EXT : Int := 0x3274
def EGL_DMA_BUF_PLANE1_FD_EXT : Int := 0x3275
def EGL_DMA_BUF_PLANE1_OFFSET_EXT : Int := 0x3276
def EGL_DMA_BUF_PLANE1_PITCH_EXT : Int := 0x3277
def EGL_DMA_BUF_PLANE2_FD_EXT : Int := 0x3278
def EGL_DMA_BUF_PLANE2_OFFSET_EXT : Int := 0x3279
def EGL_DMA_BUF_PLANE2_PITCH_EXT : Int := 0x327A

/-- The macro `GST_BUFFER_GET_DMAFD(buffer, plane)` (v4l2source.cpp:115-118). -/
def GST_BUFFER_GET_DMAFD (buffer : GstBuffer) (plane : Nat) : Int :=
  if plane < gst_buffer_n_memory buffer then
    gst_dmabuf_memory_get_fd (gst_buffer_peek_memory buffer plane)
  else
    gst_dmabuf_memory_get_fd (gst_buffer_peek_memory buffer 0)

/-- The array `attribs[0 .. idx)` that the `GstDmaVideoBuffer` constructor fills
(v4l2source.cpp:132-163); every `attribs[idx++] = v` appends `v` as an `EGLint`. -/
def GstDmaVideoBuffer.attribs (buffer : GstBuffer) (m_videoMeta : GstVideoMeta) : List Int :=
  let attribs : List Int :=
    [EGL_WIDTH, toInt32 m_videoMeta.width,
     EGL_HEIGHT, toInt32 m_videoMeta.height,
     EGL_LINUX_DRM_FOURCC_EXT, gst_video_format_to_drm_code m_videoMeta.format,
     EGL_DMA_BUF_PLANE0_FD_EXT, GST_BUFFER_GET_DMAFD buffer 0,
     EGL_DMA_BUF_PLANE0_OFFSET_EXT, toInt32 (m_videoMeta.offset 0),
     EGL_DMA_BUF_PLANE0_PITCH_EXT, m_videoMeta.stride 0]
  let attribs : List Int :=
    if m_videoMeta.n_planes > 1 then
      attribs ++
        [EGL_DMA_BUF_PLANE1_FD_EXT, GST_BUFFER_GET_DMAFD buffer 1,
         EGL_DMA_BUF_PLANE1_OFFSET_EXT, toInt32 (m_videoMeta.offset 1),
         EGL_DMA_BUF_PLANE1_PITCH_EXT, m_videoMeta.stride 1]
    else attribs
  let attribs : List Int :=
    if m_videoMeta.n_planes > 2 then
      attribs ++
        [EGL_DMA_BUF_PLANE2_FD_EXT, GST_BUFFER_GET_DMAFD buffer 2,
         EGL_DMA_BUF_PLANE2_OFFSET_EXT, toInt32 (m_videoMeta.offset 2),
         EGL_DMA_BUF_PLANE2_PITCH_EXT, m_videoMeta.stride 2]
    else attribs
  attribs ++ [EGL_NONE]

/-- The attribute names of an attribute list: the entries at even positions. -/
def attribKeys : List Int → List Int
  | [] => []
  | [k] => [k]
  | k :: _ :: rest => k :: attribKeys rest

/-- The three attribute names of plane `i`, for the planes 0, 1 and 2 that the
constructor can describe. -/
def planeKeys : Nat → List Int
  | 0 => [EGL_DMA_BUF_PLANE0_FD_EXT, EGL_DMA_BUF_PLANE0_OFFSET_EXT,
          EGL_DMA_BUF_PLANE0_PITCH_EXT]
  | 1 => [EGL_DMA_BUF_PLANE1_FD_EXT, EGL_DMA_BUF_PLANE1_OFFSET_EXT,
          EGL_DMA_BUF_PLANE1_PITCH_EXT]
  | 2 => [EGL_DMA_BUF_PLANE2_FD_EXT, EGL_DMA_BUF_PLANE2_OFFSET_EXT,
          EGL_DMA_BUF_PLANE2_PITCH_EXT]
  | _ => []

/-- The file descriptor of plane `plane` of a buffer with the memory regions
`memory`, read off the regions themselves: a plane that has a region of its
own (region number `plane`) has the descriptor of that region; a plane beyond
the last region lies in region 0 and has the descriptor of region 0. A region
that is not dmabuf memory has no descriptor, written -1. -/
def planeFileDescriptor (memory : List GstMemory) (plane : Nat) : Int :=
  match memory[plane]?, memory with
  | some (GstMemory.dmabuf fd), _ => fd
  | some GstMemory.system, _ => -1
  | none, GstMemory.dmabuf fd :: _ => fd
  | none, _ => -1

/-- The plane-descriptor triple of plane `i`: its FD, OFFSET and PITCH names,
each followed by its value: the file descriptor of the plane as read off the
buffer's memory regions, `offset[i]` and `stride[i]`. -/
def planeTriple (buffer : GstBuffer) (m : GstVideoMeta) (i : Nat) : List Int :=
  match planeKeys i with
  | [fd, offset, pitch] =>
    [fd, planeFileDescriptor buffer.memory i, offset, toInt32 (m.offset i), pitch, m.stride i]
  | _ => []

/-! ## Effects -/

/-- Enumeration `QAbstractVideoBuffer::HandleType`, the two kinds the source uses. -/
inductive HandleType
  | NoHandle
  | EGLImageHandle
  deriving DecidableEq, Repr

/-- Enumeration `QAbstractVideoBuffer::MapMode`. -/
inductive MapMode
  | NotMapped
  | ReadOnly
  | WriteOnly
  | ReadWrite
  deriving DecidableEq, Repr

/-- The value of a property passed to `g_object_set`. -/
inductive GValue
  | str (s : String)
  | int (n : Int)
  deriving DecidableEq, Repr

/-- The externally visible actions of the source, in the order it performs them. -/
inductive Event
  | mutexLock
  | mutexUnlock
  | frameReady
  | pullSample
  | construct (kind : HandleType)
  | eglCreateImageKHR (attribs : List Int)
  | surfaceStart (width height : Int) (format : PixelFormat)
  | surfacePresent (kind : HandleType) (width height : Int) (format : PixelFormat)
  | sampleUnref
  | videoMetaMap (plane : Nat) (flags : Nat)
  | videoMetaUnmap (plane : Nat)
  | busPostEos
  | futureWait
  | gObjectSet (name : String) (value : GValue)
  | asyncRun
  deriving DecidableEq, Repr

/-- The run of a function: the actions it performed, and the value it returned;
`none` when it did not return (a failed `Q_ASSERT`, or undefined behaviour). -/
structure Run (α : Type) where
  trace : List Event
  final : Option α

/-- Sequencing of two runs: the second one starts only if the first returned. -/
def Run.andThen {α β : Type} (r : Run α) (k : α → Run β) : Run β :=
  match r.final with
  | none => { trace := r.trace, final := none }
  | some a => { trace := r.trace ++ (k a).trace, final := (k a).final }

/-! ## Planar Buffer Adapter -/

def GST_MAP_READ : Nat := 1
def GST_MAP_WRITE : Nat := 2

/-- The numeric value of a `MapMode` enumerator. -/
def MapMode.toNat : MapMode → Nat
  | MapMode.NotMapped => 0
  | MapMode.ReadOnly => 1
  | MapMode.WriteOnly => 2
  | MapMode.ReadWrite => 3

/-- The fields of `GstMapInfo` that matter here. -/
structure GstMapInfo where
  data : Nat
  size : Nat
  deriving DecidableEq, Repr

/-- What a successful `gst_video_meta_map` hands back for one plane. -/
structure PlaneMapping where
  info : GstMapInfo
  data : Nat
  stride : Int
  deriving DecidableEq, Repr

/-- The caller's variables behind the out-parameters of `map`. -/
structure MapOutputs where
  numBytes : Int
  bytesPerLine : Nat → Int
  data : Nat → Nat

/-- The object state of a `GstVideoBuffer`. -/
structure GstVideoBuffer where
  m_videoMeta : GstVideoMeta
  m_mode : MapMode
  m_mapInfo : Nat → GstMapInfo

/-- The object state of a `GstDmaVideoBuffer`; `image` is the attribute list the
image was created from, or `none` for `EGL_NO_IMAGE_KHR`. -/
structure GstDmaVideoBuffer where
  m_videoMeta : GstVideoMeta
  image : Option (List Int)

/-- Array store `a[i] = v`. -/
def setAt {α : Type} (a : Nat → α) (i : Nat) (v : α) : Nat → α :=
  fun j => if j = i then v else a j

/-- The variables the loop of `map` works on. -/
structure MapLoopState where
  m_mapInfo : Nat → GstMapInfo
  out : MapOutputs
  size : Int
  trace : List Event

/-- The flags computed at the head of `map` (v4l2source.cpp:249-251). -/
def GstVideoBuffer.mapFlags (mode : MapMode) : Nat :=
  (if mode.toNat &&& MapMode.ReadOnly.toNat ≠ 0 then GST_MAP_READ else 0) |||
    (if mode.toNat &&& MapMode.WriteOnly.toNat ≠ 0 then GST_MAP_WRITE else 0)

/-- One round of the loop of `map` (v4l2source.cpp:256-259).
`gst_video_meta_map plane flags` is the library call: `none` when it fails, in
which case it writes nothing; the source ignores its return value. -/
def GstVideoBuffer.mapBody (gst_video_meta_map : Nat → Nat → Option PlaneMapping)
    (flags : Nat) (i : Nat) (st : MapLoopState) : MapLoopState :=
  let st1 : MapLoopState :=
    match gst_video_meta_map i flags with
    | some r =>
      { st with
        m_mapInfo := setAt st.m_mapInfo i r.info
        out := { st.out with
                 data := setAt st.out.data i r.data
                 bytesPerLine := setAt st.out.bytesPerLine i r.stride } }
    | none => st
  { st1 with
    size := toInt32 (st1.size + (st1.m_mapInfo i).size)
    trace := st1.trace ++ [Event.videoMetaMap i flags] }

/-- The result of `map`: the object, the caller's variables, the returned plane
count, and the library calls made. -/
structure MapResult where
  self : GstVideoBuffer
  out : MapOutputs
  ret : Int
  trace : List Event

/-- Method `GstVideoBuffer::map` (v4l2source.cpp:243-265). -/
def GstVideoBuffer.map (self : GstVideoBuffer)
    (gst_video_meta_map : Nat → Nat → Option PlaneMapping)
    (mode : MapMode) (out : MapOutputs) : MapResult :=
  let size : Int := 0
  let flags := GstVideoBuffer.mapFlags mode
  if mode = MapMode.NotMapped ∨ self.m_mode ≠ MapMode.NotMapped then
    { self := self, out := out, ret := 0, trace := [] }
  else
    let st := forLoop (GstVideoBuffer.mapBody gst_video_meta_map flags)
      { m_mapInfo := self.m_mapInfo, out := out, size := size, trace := [] }
      self.m_videoMeta.n_planes
    { self := { self with m_mapInfo := st.m_mapInfo, m_mode := mode }
      out := { st.out with numBytes := st.size }
      ret := toInt32 self.m_videoMeta.n_planes
      trace := st.trace }

/-- Method `GstVideoBuffer::mapMode` (v4l2source.cpp:267-270). -/
def GstVideoBuffer.mapMode (self : GstVideoBuffer) : MapMode := self.m_mode

/-- Method `GstVideoBuffer::unmap` (v4l2source.cpp:272-280). -/
def GstVideoBuffer.unmap (self : GstVideoBuffer) : GstVideoBuffer × List Event :=
  let trace : List Event :=
    if self.m_mode ≠ MapMode.NotMapped then
      forLoop (fun i t => t ++ [Event.videoMetaUnmap i]) [] self.m_videoMeta.n_planes
    else []
  ({ self with m_mode := MapMode.NotMapped }, trace)

/-! ## Pipeline Controller and Sample Bridge -/

/-- The properties of the `v4l2src` element that the source sets. -/
structure V4l2Src where
  device : String
  io_mode : Int
  deriving DecidableEq, Repr

/-- Library call `g_object_set(v4l2src, name, value, NULL)`: a name that is not
a property of the element, or a value of the wrong type, sets nothing (GObject
only prints a warning). -/
def g_object_set (obj : V4l2Src) (name : String) (value : GValue) : V4l2Src :=
  if name = "device" then
    match value with
    | GValue.str s => { obj with device := s }
    | GValue.int _ => obj
  else if name = "io-mode" then
    match value with
    | GValue.int n => { obj with io_mode := n }
    | GValue.str _ => obj
  else obj

/-- The object behind `videoBuffer`: one of the two adapters. -/
inductive VideoBuffer
  | dma (b : GstDmaVideoBuffer)
  | planar (b : GstVideoBuffer)

/-- The handle type each adapter passes to the `QAbstractVideoBuffer` constructor. -/
def VideoBuffer.handleType : VideoBuffer → HandleType
  | VideoBuffer.dma _ => HandleType.EGLImageHandle
  | VideoBuffer.planar _ => HandleType.NoHandle

/-- A `QVideoFrame` as the source builds it: buffer kind, size, pixel format. -/
structure QVideoFrame where
  handleType : HandleType
  width : Int
  height : Int
  pixelFormat : PixelFormat
  deriving DecidableEq, Repr

/-- A `QVideoSurfaceFormat(size, format)`. -/
structure QVideoSurfaceFormat where
  width : Int
  height : Int
  pixelFormat : PixelFormat
  deriving DecidableEq, Repr

/-- The state of a `V4L2Source` (v4l2source.h:83-102) and of the objects it
drives. `surfaceActive` is `m_surface->isActive()`. `worker_handle` is the
`std::future`: `none` when it has no shared state (`valid()` is false),
`some r` when it refers to an async task, with `r` true while that task's
`run()` has not returned. `orphans` counts the worker threads still inside
`run()` that `worker_handle` does not refer to. -/
structure V4L2Source where
  m_device : String
  EGLImageSupported : Bool
  ready : Bool
  surfaceActive : Bool
  m_format : Option QVideoSurfaceFormat
  videoBuffer : Option VideoBuffer
  videoFrame : Option QVideoFrame
  worker_handle : Option Bool
  orphans : Nat
  v4l2src : V4l2Src

def GST_FLOW_OK : Int := 0

/-- Method `V4L2Source::on_new_sample` (v4l2source.cpp:504-512). The `QMutexLocker`
unlocks when the function body is left, after `frameReady()` was emitted. -/
def V4L2Source.on_new_sample (self : V4L2Source) : Run (Int × V4L2Source) :=
  let self := { self with ready := true }
  { trace := [Event.mutexLock, Event.frameReady, Event.mutexUnlock]
    final := some (GST_FLOW_OK, self) }

/-- The state after `n` successive runs of the callback `on_new_sample`. -/
def V4L2Source.triggers (self : V4L2Source) : Nat → V4L2Source
  | 0 => self
  | n + 1 =>
    match (V4L2Source.triggers self n).on_new_sample.final with
    | some (_, s) => s
    | none => V4L2Source.triggers self n

/-- The rounds of the loop of `buffer_is_dmabuf` from index `i` on, `k` rounds
remaining (v4l2source.cpp:452-457). -/
def buffer_is_dmabuf_loop (buffer : GstBuffer) (i : Nat) : Nat → Bool
  | 0 => true
  | k + 1 =>
    let memory := gst_buffer_peek_memory buffer 0
    if !gst_is_dmabuf_memory memory then false
    else buffer_is_dmabuf_loop buffer (i + 1) k

/-- Function `buffer_is_dmabuf` (v4l2source.cpp:449-459). -/
def buffer_is_dmabuf (buffer : GstBuffer) : Bool :=
  let n_mem := gst_buffer_n_memory buffer
  buffer_is_dmabuf_loop buffer 0 n_mem

/-- What the libraries answer during one run of `sync()`, and the build mode.
`sample` is the buffer of the sample that `gst_app_sink_pull_sample` returns;
`displayValid` is `dpy != EGL_NO_DISPLAY`; `imageValid` is whether
`eglCreateImageKHR` returns an image; `surfaceStarts` is the return value of
`m_surface->start`; `debugBuild` is whether `Q_ASSERT` is compiled in: without
it `Q_ASSERT(e)` does not evaluate `e`. -/
structure SyncEnv where
  sample : GstBuffer
  displayValid : Bool
  imageValid : Bool
  surfaceStarts : Bool
  debugBuild : Bool

/-- A run that performs nothing and returns `a`. -/
def Run.ret {α : Type} (a : α) : Run α := { trace := [], final := some a }

/-- The `GstDmaVideoBuffer` constructor (v4l2source.cpp:124-175). -/
def GstDmaVideoBuffer.new (env : SyncEnv) (buffer : GstBuffer) (videoMeta : GstVideoMeta) :
    Run GstDmaVideoBuffer :=
  let attribs := GstDmaVideoBuffer.attribs buffer videoMeta
  let t : List Event := [Event.construct HandleType.EGLImageHandle]
  if env.debugBuild && !env.displayValid then { trace := t, final := none }
  else
    let image : Option (List Int) := if env.imageValid then some attribs else none
    let t := t ++ [Event.eglCreateImageKHR attribs]
    if env.debugBuild && image.isNone then { trace := t, final := none }
    else { trace := t, final := some { m_videoMeta := videoMeta, image := image } }

/-- The `GstVideoBuffer` constructor (v4l2source.cpp:227-232). `m_mapInfo` is
not initialised by the source; it is zero here. -/
def GstVideoBuffer.new (videoMeta : GstVideoMeta) : Run GstVideoBuffer :=
  { trace := [Event.construct HandleType.NoHandle]
    final := some { m_videoMeta := videoMeta, m_mode := MapMode.NotMapped,
                    m_mapInfo := fun _ => { data := 0, size := 0 } } }

/-- Method `V4L2Source::sync` (v4l2source.cpp:462-502). The destructors of the adapter
and frame that the two `reset` calls replace are not part of the embedding. -/
def V4L2Source.sync (self : V4L2Source) (env : SyncEnv) : Run V4L2Source :=
  if !self.ready then
    { trace := [Event.mutexLock, Event.mutexUnlock], final := some self }
  else
    let self := { self with ready := false }
    let head : Run Unit :=
      { trace := [Event.mutexLock, Event.mutexUnlock, Event.pullSample], final := some () }
    head.andThen fun _ =>
    let buffer := env.sample
    let videoMeta := buffer.videoMeta
    let self := { self with videoFrame := none }
    (if self.EGLImageSupported && buffer_is_dmabuf buffer then
        (GstDmaVideoBuffer.new env buffer videoMeta).andThen fun b =>
          Run.ret (VideoBuffer.dma b)
      else
        (GstVideoBuffer.new videoMeta).andThen fun b =>
          Run.ret (VideoBuffer.planar b)).andThen fun vb =>
    let self := { self with videoBuffer := some vb }
    let width := toInt32 videoMeta.width
    let height := toInt32 videoMeta.height
    let format := gst_video_format_to_qvideoformat videoMeta.format
    let frame : QVideoFrame :=
      { handleType := vb.handleType, width := width, height := height, pixelFormat := format }
    let self := { self with videoFrame := some frame }
    (if !self.surfaceActive then
        let self :=
          { self with m_format := some { width := width, height := height, pixelFormat := format } }
        if env.debugBuild then
          { trace := [Event.surfaceStart width height format]
            final := if env.surfaceStarts then some { self with surfaceActive := true } else none }
        else Run.ret self
      else Run.ret self).andThen fun self =>
    { trace := [Event.surfacePresent frame.handleType width height format, Event.sampleUnref]
      final := some self }

/-- Method `V4L2Source::stop` (v4l2source.cpp:433-439). `worker_handle.wait()` returns
once the task has finished; on a future without shared state it is undefined
behaviour and the run has no final state. -/
def V4L2Source.stop (self : V4L2Source) : Run V4L2Source :=
  { trace := [Event.busPostEos, Event.futureWait]
    final :=
      match self.worker_handle with
      | none => none
      | some _ => some { self with worker_handle := some false } }

/-- Method `V4L2Source::start` (v4l2source.cpp:418-431). The assignment to
`worker_handle` drops the reference to the previous task; if that task were
still running it would be counted in `orphans`. -/
def V4L2Source.start (self : V4L2Source) : Run V4L2Source :=
  (if self.worker_handle.isSome then self.stop else Run.ret self).andThen fun self =>
    let device := GValue.str self.m_device
    let self := { self with v4l2src := g_object_set self.v4l2src "device" device }
    let t : List Event := [Event.gObjectSet "device" device]
    let self :=
      if self.EGLImageSupported then
        { self with v4l2src := g_object_set self.v4l2src "io-mode  " (GValue.int 4) }
      else self
    let t :=
      if self.EGLImageSupported then t ++ [Event.gObjectSet "io-mode  " (GValue.int 4)]
      else t
    { trace := t ++ [Event.asyncRun]
      final := some
        { self with
          worker_handle := some true
          orphans := self.orphans + (if self.worker_handle = some true then 1 else 0) } }

/-- The number of worker threads that are inside `run()`. -/
def V4L2Source.aliveWorkers (self : V4L2Source) : Nat :=
  self.orphans + (if self.worker_handle = some true then 1 else 0)

/-- The number of occurrences of `pullSample` in a trace. -/
def countPulls (t : List Event) : Nat := t.count Event.pullSample

/-- Whether an action is a `present` call on the surface. -/
def Event.isPresent : Event → Bool
  | Event.surfacePresent _ _ _ _ => true
  | _ => false

/-- Whether an action is a `start` call on the surface. -/
def Event.isSurfaceStart : Event → Bool
  | Event.surfaceStart _ _ _ => true
  | _ => false

/-- The number of frames a trace publishes. -/
def countPresents (t : List Event) : Nat := t.countP Event.isPresent

/-! ## Concrete inputs -/

/-- A 640x480 video meta of the given format and plane count. -/
def exMeta (format n_planes : Nat) : GstVideoMeta :=
  { format := format, width := 640, height := 480, n_planes := n_planes,
    offset := fun i => i * 307200, stride := fun _ => 640 }

/-- A controller that was never started, with an inactive surface. -/
def exSource (eglImageSupported ready : Bool) : V4L2Source :=
  { m_device := "/dev/video0", EGLImageSupported := eglImageSupported, ready := ready,
    surfaceActive := false, m_format := none, videoBuffer := none, videoFrame := none,
    worker_handle := none, orphans := 0, v4l2src := { device := "", io_mode := 0 } }

/-- A debug-build tick in which every library call succeeds. -/
def exEnv (memory : List GstMemory) (videoMeta : GstVideoMeta) : SyncEnv :=
  { sample := { memory := memory, videoMeta := videoMeta },
    displayValid := true, imageValid := true, surfaceStarts := true, debugBuild := true }

/-- A planar adapter over a 640x480 sample, in the given map state. -/
def exPlanar (n_planes : Nat) (mode : MapMode) : GstVideoBuffer :=
  { m_videoMeta := exMeta GST_VIDEO_FORMAT_NV12 n_planes, m_mode := mode,
    m_mapInfo := fun _ => { data := 0, size := 0 } }

/-- A mapping facility that maps every plane: plane `i` at address
`4096 * (i + 1)`, 307200 bytes for plane 0 and 153600 for the others. -/
def exPlaneMap (i : Nat) (_flags : Nat) : Option PlaneMapping :=
  some { info := { data := 4096 * (i + 1), size := if i = 0 then 307200 else 153600 },
         data := 4096 * (i + 1), stride := 640 }

/-- Caller variables holding recognisable values before the call of `map`. -/
def exOutputs : MapOutputs :=
  { numBytes := -1, bytesPerLine := fun _ => -1, data := fun _ => 0 }

/-- The sum of the sizes recorded in `m_mapInfo[0 .. n)`. -/
def mappedSize (m_mapInfo : Nat → GstMapInfo) (n : Nat) : Int :=
  ((List.range n).map fun i => ((m_mapInfo i).size : Int)).sum

/-- A controller that was started and then stopped: its future is valid and
its task has finished. -/
def exStopped : V4L2Source :=
  { exSource false false with worker_handle := some false }

/-! ## Sample Bridge, statement by statement -/

/-- The statements of `on_new_sample` that act on the lock, the Ready Flag or
the signal (v4l2source.cpp:508-511): the `QMutexLocker` constructor, the store
`self->ready = true`, the emission `self->frameReady()`, and the `QMutexLocker`
destructor, which runs when the function is left by `return GST_FLOW_OK`. -/
inductive BridgeStep
  | lock
  | setReady
  | emitFrameReady
  | unlock
  deriving DecidableEq, Repr

/-- The statements `on_new_sample` executes, in program order, each with the
controller state right after it. -/
def V4L2Source.on_new_sample_steps (self : V4L2Source) : List (BridgeStep × V4L2Source) :=
  let s0 := self
  let s1 := { s0 with ready := true }
  [(BridgeStep.lock, s0), (BridgeStep.setReady, s1), (BridgeStep.emitFrameReady, s1),
   (BridgeStep.unlock, s1)]

/-- The externally visible action of a statement; the store to the flag has none. -/
def BridgeStep.toEvent : BridgeStep → Option Event
  | BridgeStep.lock => some Event.mutexLock
  | BridgeStep.setReady => none
  | BridgeStep.emitFrameReady => some Event.frameReady
  | BridgeStep.unlock => some Event.mutexUnlock

/-- Whether a sequence of statements emits `frameReady` at a moment the lock is
held; `held` says whether the lock is held at the start of the sequence. -/
def emitsWhileLocked (held : Bool) : List BridgeStep → Bool
  | [] => false
  | BridgeStep.lock :: rest => emitsWhileLocked true rest
  | BridgeStep.unlock :: rest => emitsWhileLocked false rest
  | BridgeStep.emitFrameReady :: rest => held || emitsWhileLocked held rest
  | BridgeStep.setReady :: rest => emitsWhileLocked held rest

/-! ## Theorems -/

/-- C1 (as stated, refuted): NV16, a format of the spec's minimum list, gets a
non-sentinel layout code from `gst_video_format_to_drm_code` but
`Format_Invalid` from `gst_video_format_to_qvideoformat`, so the two
translators do not agree on which formats are supported. -/
theorem c1_translators_disagree_on_nv16 :
    ¬ (∀ f : Nat,
        gst_video_format_to_drm_code f = 0 ↔
          gst_video_format_to_qvideoformat f = Format_Invalid) := by
  intro h
  have h51 := (h GST_VIDEO_FORMAT_NV16).mpr (by decide)
  revert h51
  decide

/-- C1 (amended): a format with a non-invalid surface pixel format also has a
non-sentinel layout code; each of the twelve formats both translators know gets
both; NV16, YVYU and I420_10LE get a layout code but `Format_Invalid`; every
other format gets the sentinel from both translators. -/
theorem c1_translators_supported_formats (f : Nat) :
    (gst_video_format_to_qvideoformat f ≠ Format_Invalid →
        gst_video_format_to_drm_code f ≠ 0) ∧
    (f ∈ commonFormats ↔ gst_video_format_to_qvideoformat f ≠ Format_Invalid) ∧
    (f ∈ commonFormats ∨ f ∈ drmOnlyFormats ↔ gst_video_format_to_drm_code f ≠ 0) ∧
    (f ∈ drmOnlyFormats ↔
        gst_video_format_to_drm_code f ≠ 0 ∧
          gst_video_format_to_qvideoformat f = Format_Invalid) := by
  by_cases hf : f ≤ 51
  · interval_cases f <;> decide
  · have h : 51 < f := Nat.lt_of_not_le hf
    have hq : gst_video_format_to_qvideoformat f = Format_Invalid := by
      simp only [gst_video_format_to_qvideoformat, GST_VIDEO_FORMAT_I420,
        GST_VIDEO_FORMAT_NV12, GST_VIDEO_FORMAT_UYVY, GST_VIDEO_FORMAT_YUY2,
        GST_VIDEO_FORMAT_YV12, GST_VIDEO_FORMAT_RGB, GST_VIDEO_FORMAT_BGR,
        GST_VIDEO_FORMAT_ARGB, GST_VIDEO_FORMAT_RGBA, GST_VIDEO_FORMAT_xRGB,
        GST_VIDEO_FORMAT_BGRx, GST_VIDEO_FORMAT_GRAY8]
      simp (disch := omega) only [if_neg]
    have hd : gst_video_format_to_drm_code f = 0 := by
      simp only [gst_video_format_to_drm_code, GST_VIDEO_FORMAT_I420,
        GST_VIDEO_FORMAT_NV16, GST_VIDEO_FORMAT_YVYU, GST_VIDEO_FORMAT_I420_10LE,
        GST_VIDEO_FORMAT_NV12, GST_VIDEO_FORMAT_UYVY, GST_VIDEO_FORMAT_YUY2,
        GST_VIDEO_FORMAT_YV12, GST_VIDEO_FORMAT_RGB, GST_VIDEO_FORMAT_BGR,
        GST_VIDEO_FORMAT_ARGB, GST_VIDEO_FORMAT_RGBA, GST_VIDEO_FORMAT_xRGB,
        GST_VIDEO_FORMAT_BGRx, GST_VIDEO_FORMAT_GRAY8]
      simp (disch := omega) only [if_neg]
    have hc : f ∉ commonFormats := by
      simp only [commonFormats, GST_VIDEO_FORMAT_I420,
        GST_VIDEO_FORMAT_NV12, GST_VIDEO_FORMAT_UYVY, GST_VIDEO_FORMAT_YUY2,
        GST_VIDEO_FORMAT_YV12, GST_VIDEO_FORMAT_RGB, GST_VIDEO_FORMAT_BGR,
        GST_VIDEO_FORMAT_ARGB, GST_VIDEO_FORMAT_RGBA, GST_VIDEO_FORMAT_xRGB,
        GST_VIDEO_FORMAT_BGRx, GST_VIDEO_FORMAT_GRAY8, List.mem_cons,
        List.mem_singleton, List.mem_nil_iff, or_false]
      omega
    have ho : f ∉ drmOnlyFormats := by
      simp only [drmOnlyFormats, GST_VIDEO_FORMAT_NV16, GST_VIDEO_FORMAT_YVYU,
        GST_VIDEO_FORMAT_I420_10LE, List.mem_cons, List.mem_singleton,
        List.mem_nil_iff, or_false]
      omega
    simp [hq, hd, hc, ho]

/-! ### The render-thread tick -/

/-- After at least one run of `on_new_sample` the Ready Flag is set. -/
theorem triggers_ready (self : V4L2Source) (n : Nat) :
    (self.triggers (n + 1)).ready = true := by
  simp [V4L2Source.triggers, V4L2Source.on_new_sample]

/-- A tick that finds the Ready Flag clear only takes and releases the lock. -/
theorem sync_not_ready (s : V4L2Source) (env : SyncEnv) (h : s.ready = false) :
    s.sync env = { trace := [Event.mutexLock, Event.mutexUnlock], final := some s } := by
  simp [V4L2Source.sync, h]

/-- C2 (as stated, refuted): a sample of the unrecognised format
`GST_VIDEO_FORMAT_UNKNOWN` is published all the same: `sync()` starts the
surface with `Format_Invalid` and presents the frame. -/
theorem c2_unrecognised_format_is_presented :
    gst_video_format_to_qvideoformat GST_VIDEO_FORMAT_UNKNOWN = Format_Invalid ∧
    gst_video_format_to_drm_code GST_VIDEO_FORMAT_UNKNOWN = 0 ∧
    ((exSource false true).sync
        (exEnv [GstMemory.system] (exMeta GST_VIDEO_FORMAT_UNKNOWN 1))).trace =
      [Event.mutexLock, Event.mutexUnlock, Event.pullSample,
       Event.construct HandleType.NoHandle,
       Event.surfaceStart 640 480 Format_Invalid,
       Event.surfacePresent HandleType.NoHandle 640 480 Format_Invalid,
       Event.sampleUnref] := by
  decide

/-- C2 (amended): `sync()` has no sentinel check. For a pulled sample whose
format `gst_video_format_to_qvideoformat` does not recognise, a tick in which
no `Q_ASSERT` fails returns and presents exactly one frame, of pixel format
`Format_Invalid`; in a debug build an inactive surface is started with
`Format_Invalid`; and on the zero-copy path the attribute list handed to
`eglCreateImageKHR` carries `gst_video_format_to_drm_code` of the format as its
layout code, whatever it is. -/
theorem c2_sync_presents_unrecognised_format (self : V4L2Source) (env : SyncEnv)
    (hready : self.ready = true)
    (hfmt : gst_video_format_to_qvideoformat env.sample.videoMeta.format = Format_Invalid)
    (hok : env.debugBuild = true →
      env.displayValid = true ∧ env.imageValid = true ∧ env.surfaceStarts = true) :
    (self.sync env).final.isSome = true ∧
    (self.sync env).trace.filter Event.isPresent =
      [Event.surfacePresent
        (if self.EGLImageSupported && buffer_is_dmabuf env.sample
          then HandleType.EGLImageHandle else HandleType.NoHandle)
        (toInt32 env.sample.videoMeta.width) (toInt32 env.sample.videoMeta.height)
        Format_Invalid] ∧
    (self.surfaceActive = false → env.debugBuild = true →
      (self.sync env).trace.filter Event.isSurfaceStart =
        [Event.surfaceStart (toInt32 env.sample.videoMeta.width)
          (toInt32 env.sample.videoMeta.height) Format_Invalid]) ∧
    ((self.EGLImageSupported && buffer_is_dmabuf env.sample) = true →
      Event.eglCreateImageKHR (GstDmaVideoBuffer.attribs env.sample env.sample.videoMeta) ∈
          (self.sync env).trace ∧
        (GstDmaVideoBuffer.attribs env.sample env.sample.videoMeta)[4]? =
          some EGL_LINUX_DRM_FOURCC_EXT ∧
        (GstDmaVideoBuffer.attribs env.sample env.sample.videoMeta)[5]? =
          some (gst_video_format_to_drm_code env.sample.videoMeta.format)) := by
  have hattr4 : (GstDmaVideoBuffer.attribs env.sample env.sample.videoMeta)[4]? =
      some EGL_LINUX_DRM_FOURCC_EXT := by
    unfold GstDmaVideoBuffer.attribs
    split_ifs <;> rfl
  have hattr5 : (GstDmaVideoBuffer.attribs env.sample env.sample.videoMeta)[5]? =
      some (gst_video_format_to_drm_code env.sample.videoMeta.format) := by
    unfold GstDmaVideoBuffer.attribs
    split_ifs <;> rfl
  refine ⟨?_, ?_, ?_, ?_⟩
  · cases he : self.EGLImageSupported <;> cases hb : buffer_is_dmabuf env.sample <;>
    cases hd : env.debugBuild <;> cases ha : self.surfaceActive <;>
    simp_all [V4L2Source.sync, Run.andThen, Run.ret, GstDmaVideoBuffer.new, GstVideoBuffer.new]
  · cases he : self.EGLImageSupported <;> cases hb : buffer_is_dmabuf env.sample <;>
    cases hd : env.debugBuild <;> cases ha : self.surfaceActive <;>
    simp_all [V4L2Source.sync, Run.andThen, Run.ret, GstDmaVideoBuffer.new, GstVideoBuffer.new,
      Event.isPresent, VideoBuffer.handleType, List.filter_cons]
  · intro ha hd
    cases he : self.EGLImageSupported <;> cases hb : buffer_is_dmabuf env.sample <;>
    simp_all [V4L2Source.sync, Run.andThen, Run.ret, GstDmaVideoBuffer.new, GstVideoBuffer.new,
      Event.isSurfaceStart, List.filter_cons]
  · intro hA
    refine ⟨?_, hattr4, hattr5⟩
    cases he : self.EGLImageSupported <;> cases hb : buffer_is_dmabuf env.sample <;>
    cases hd : env.debugBuild <;> cases ha : self.surfaceActive <;>
    simp_all [V4L2Source.sync, Run.andThen, Run.ret, GstDmaVideoBuffer.new]

/-- Witness for C2 (amended): the tick of the refuting input. -/
theorem c2_sync_presents_unrecognised_format_witness :
    (exSource false true).ready = true ∧
    gst_video_format_to_qvideoformat
      (exEnv [GstMemory.system] (exMeta GST_VIDEO_FORMAT_UNKNOWN 1)).sample.videoMeta.format =
        Format_Invalid ∧
    ((exSource false true).sync
        (exEnv [GstMemory.system] (exMeta GST_VIDEO_FORMAT_UNKNOWN 1))).trace.filter
        Event.isPresent =
      [Event.surfacePresent HandleType.NoHandle 640 480 Format_Invalid] :=
  ⟨rfl, by decide,
   (c2_sync_presents_unrecognised_format (exSource false true)
      (exEnv [GstMemory.system] (exMeta GST_VIDEO_FORMAT_UNKNOWN 1))
      rfl (by decide) (fun _ => ⟨rfl, rfl, rfl⟩)).2.1⟩

/-- C3 (the code at the failing input): with `EGLImageSupported` set and a
buffer of two memory regions of which only region 0 is dmabuf,
`buffer_is_dmabuf` answers true, because every round of its loop inspects
region 0, and `sync()` constructs the `GstDmaVideoBuffer`; the descriptor it
takes for plane 1 is -1. -/
theorem c3_mixed_memory_takes_dma_path :
    gst_is_dmabuf_memory
        (gst_buffer_peek_memory
          { memory := [GstMemory.dmabuf 7, GstMemory.system],
            videoMeta := exMeta GST_VIDEO_FORMAT_NV12 2 } 1) = false ∧
    buffer_is_dmabuf
        { memory := [GstMemory.dmabuf 7, GstMemory.system],
          videoMeta := exMeta GST_VIDEO_FORMAT_NV12 2 } = true ∧
    ((exSource true true).sync
        (exEnv [GstMemory.dmabuf 7, GstMemory.system] (exMeta GST_VIDEO_FORMAT_NV12 2))).trace =
      [Event.mutexLock, Event.mutexUnlock, Event.pullSample,
       Event.construct HandleType.EGLImageHandle,
       Event.eglCreateImageKHR
         [EGL_WIDTH, 640, EGL_HEIGHT, 480, EGL_LINUX_DRM_FOURCC_EXT, DRM_FORMAT_NV12,
          EGL_DMA_BUF_PLANE0_FD_EXT, 7, EGL_DMA_BUF_PLANE0_OFFSET_EXT, 0,
          EGL_DMA_BUF_PLANE0_PITCH_EXT, 640,
          EGL_DMA_BUF_PLANE1_FD_EXT, -1, EGL_DMA_BUF_PLANE1_OFFSET_EXT, 307200,
          EGL_DMA_BUF_PLANE1_PITCH_EXT, 640, EGL_NONE],
       Event.surfaceStart 640 480 Format_NV12,
       Event.surfacePresent HandleType.EGLImageHandle 640 480 Format_NV12,
       Event.sampleUnref] := by
  decide

set_option maxHeartbeats 1600000 in
/-- A tick that finds the Ready Flag set pulls once and presents at most once;
if it returns, it presented once and left the flag clear. -/
theorem sync_ready_counts (s : V4L2Source) (env : SyncEnv) (h : s.ready = true) :
    countPulls (s.sync env).trace = 1 ∧
    countPresents (s.sync env).trace ≤ 1 ∧
    (∀ s1, (s.sync env).final = some s1 →
      countPresents (s.sync env).trace = 1 ∧ s1.ready = false) := by
  cases he : s.EGLImageSupported <;> cases hb : buffer_is_dmabuf env.sample <;>
  cases hd : env.debugBuild <;> cases hv : env.displayValid <;>
  cases hi : env.imageValid <;> cases ha : s.surfaceActive <;>
  cases hs : env.surfaceStarts <;>
  simp [V4L2Source.sync, h, Run.andThen, Run.ret, GstDmaVideoBuffer.new,
    GstVideoBuffer.new, he, hb, hd, hv, hi, ha, hs, countPulls, countPresents,
    Event.isPresent, List.count_cons, List.countP_cons]

/-- A tick in which every asserted library call succeeds returns. -/
theorem sync_returns (s : V4L2Source) (env : SyncEnv)
    (hok : env.debugBuild = true →
      env.displayValid = true ∧ env.imageValid = true ∧ env.surfaceStarts = true) :
    (s.sync env).final.isSome = true := by
  cases hr : s.ready <;>
  cases he : s.EGLImageSupported <;> cases hb : buffer_is_dmabuf env.sample <;>
  cases hd : env.debugBuild <;> cases ha : s.surfaceActive <;>
  simp_all [V4L2Source.sync, Run.andThen, Run.ret, GstDmaVideoBuffer.new, GstVideoBuffer.new]

/-- C4: after `N >= 1` runs of `on_new_sample` with no `sync()` in between, the
next `sync()` pulls exactly one sample and presents at most one frame; if it
returns (no `Q_ASSERT` failed) it presented exactly one frame, and the `sync()`
that follows it, with no trigger in between, only takes and releases the lock:
no pull, no present, state unchanged. A tick in which every asserted library
call succeeds does return. -/
theorem c4_ready_flag_coalesces (self : V4L2Source) (N : Nat) (hN : 1 ≤ N)
    (env env2 : SyncEnv) :
    countPulls ((self.triggers N).sync env).trace = 1 ∧
    countPresents ((self.triggers N).sync env).trace ≤ 1 ∧
    (∀ s1, ((self.triggers N).sync env).final = some s1 →
      countPresents ((self.triggers N).sync env).trace = 1 ∧
      s1.sync env2 = { trace := [Event.mutexLock, Event.mutexUnlock], final := some s1 } ∧
      countPulls (s1.sync env2).trace = 0 ∧ countPresents (s1.sync env2).trace = 0) ∧
    ((env.debugBuild = true →
        env.displayValid = true ∧ env.imageValid = true ∧ env.surfaceStarts = true) →
      ((self.triggers N).sync env).final.isSome = true) := by
  obtain ⟨n, rfl⟩ : ∃ n, N = n + 1 := ⟨N - 1, by omega⟩
  have hready := triggers_ready self n
  obtain ⟨hp, hq, hf⟩ := sync_ready_counts (self.triggers (n + 1)) env hready
  refine ⟨hp, hq, ?_, sync_returns _ env⟩
  intro s1 h1
  obtain ⟨hc, hr1⟩ := hf s1 h1
  refine ⟨hc, sync_not_ready s1 env2 hr1, ?_, ?_⟩
  · rw [sync_not_ready s1 env2 hr1]; rfl
  · rw [sync_not_ready s1 env2 hr1]; rfl

/-- Witness for C4: three triggers, then two ticks. -/
theorem c4_ready_flag_coalesces_witness :
    1 ≤ 3 ∧
    countPulls (((exSource false false).triggers 3).sync
      (exEnv [GstMemory.system] (exMeta GST_VIDEO_FORMAT_NV12 2))).trace = 1 :=
  ⟨by decide,
   (c4_ready_flag_coalesces (exSource false false) 3 (by decide)
      (exEnv [GstMemory.system] (exMeta GST_VIDEO_FORMAT_NV12 2))
      (exEnv [GstMemory.system] (exMeta GST_VIDEO_FORMAT_NV12 2))).1⟩

/-! ### Hardware Image Adapter -/

/-- The conversion to `int` keeps a value below 2^31. -/
theorem toInt32_of_lt (x : Nat) (h : x < 2147483648) : toInt32 x = x := by
  unfold toInt32; omega

/-- Positions in a list made of six leading entries, then one block of three
name/value pairs for each of the first `n` planes, then one closing entry: the
three values of plane `i` sit at the positions `7 + 6 i`, `9 + 6 i` and
`11 + 6 i`. -/
theorem blockList_values (h0 h1 h2 h3 h4 h5 z : Int) (k1 k2 k3 f o s : Nat → Int)
    (T : Nat → List Int) (n i : Nat) (hn : n ≤ 3) (hi : i < n)
    (hT : ∀ j, j < 3 → T j = [k1 j, f j, k2 j, o j, k3 j, s j]) :
    ([h0, h1, h2, h3, h4, h5] ++ (List.range n).flatMap T ++ [z])[7 + 6 * i]? = some (f i) ∧
    ([h0, h1, h2, h3, h4, h5] ++ (List.range n).flatMap T ++ [z])[9 + 6 * i]? = some (o i) ∧
    ([h0, h1, h2, h3, h4, h5] ++ (List.range n).flatMap T ++ [z])[11 + 6 * i]? = some (s i) := by
  have e0 := hT 0 (by omega)
  have e1 := hT 1 (by omega)
  have e2 := hT 2 (by omega)
  interval_cases n <;> interval_cases i <;>
    simp [List.range_succ, List.flatMap, e0, e1, e2]

/-- The six entries of the descriptor triple of a plane 0, 1 or 2. -/
theorem planeTriple_entries (buffer : GstBuffer) (m : GstVideoMeta) (j : Nat) (hj : j < 3) :
    planeTriple buffer m j =
      [(planeKeys j).getD 0 0, planeFileDescriptor buffer.memory j,
       (planeKeys j).getD 1 0, (fun i => toInt32 (m.offset i)) j,
       (planeKeys j).getD 2 0, m.stride j] := by
  interval_cases j <;> simp [planeTriple, planeKeys]

/-- C5: for a sample with N planes, N in 1..3, the attribute list of the
`GstDmaVideoBuffer` constructor is the width, height and layout-code pairs,
then the descriptor triples of the planes 0..N-1 in order (FD, OFFSET and PITCH
names with the plane's file descriptor, `offset[i]`, `stride[i]`, stored as
`EGLint`), then `EGL_NONE`; it has 7 + 6N entries, and no attribute name of a
plane >= N occurs among its names. The file descriptor is read off the
buffer's memory regions: the value after the FD name of plane `i` is the
descriptor of region `i` when that region is dmabuf memory, and the descriptor
of the dmabuf region 0 when the buffer has no region `i`. -/
theorem c5_attribs_per_plane (buffer : GstBuffer) (m : GstVideoMeta)
    (hN : m.n_planes = 1 ∨ m.n_planes = 2 ∨ m.n_planes = 3) :
    GstDmaVideoBuffer.attribs buffer m =
      [EGL_WIDTH, toInt32 m.width, EGL_HEIGHT, toInt32 m.height,
       EGL_LINUX_DRM_FOURCC_EXT, gst_video_format_to_drm_code m.format] ++
      (List.range m.n_planes).flatMap (planeTriple buffer m) ++ [EGL_NONE] ∧
    (GstDmaVideoBuffer.attribs buffer m).length = 7 + 6 * m.n_planes ∧
    attribKeys (GstDmaVideoBuffer.attribs buffer m) =
      [EGL_WIDTH, EGL_HEIGHT, EGL_LINUX_DRM_FOURCC_EXT] ++
      (List.range m.n_planes).flatMap planeKeys ++ [EGL_NONE] ∧
    (∀ j, m.n_planes ≤ j → ∀ k ∈ planeKeys j,
      k ∉ attribKeys (GstDmaVideoBuffer.attribs buffer m)) ∧
    (∀ i, i < m.n_planes → ∀ fd, buffer.memory[i]? = some (GstMemory.dmabuf fd) →
      (GstDmaVideoBuffer.attribs buffer m)[7 + 6 * i]? = some fd) ∧
    (∀ i, i < m.n_planes → buffer.memory.length ≤ i →
      ∀ fd, buffer.memory[0]? = some (GstMemory.dmabuf fd) →
      (GstDmaVideoBuffer.attribs buffer m)[7 + 6 * i]? = some fd) ∧
    (∀ i, i < m.n_planes →
      (GstDmaVideoBuffer.attribs buffer m)[9 + 6 * i]? = some (toInt32 (m.offset i)) ∧
      (GstDmaVideoBuffer.attribs buffer m)[11 + 6 * i]? = some (m.stride i)) := by
  have hkeys : ∀ n, (n = 1 ∨ n = 2 ∨ n = 3) → ∀ j, n ≤ j → ∀ k ∈ planeKeys j,
      k ∉ [EGL_WIDTH, EGL_HEIGHT, EGL_LINUX_DRM_FOURCC_EXT] ++
        (List.range n).flatMap planeKeys ++ [EGL_NONE] := by
    intro n hn j hj k hk
    have hj3 : j < 3 ∨ 3 ≤ j := by omega
    rcases hj3 with hj3 | hj3
    · have hc : (n = 1 ∧ j = 1) ∨ (n = 1 ∧ j = 2) ∨ (n = 2 ∧ j = 2) := by omega
      rcases hc with ⟨rfl, rfl⟩ | ⟨rfl, rfl⟩ | ⟨rfl, rfl⟩ <;> revert k <;> decide
    · obtain ⟨i, rfl⟩ : ∃ i, j = i + 3 := ⟨j - 3, by omega⟩
      simp [planeKeys] at hk
  have hfd : ∀ i, GST_BUFFER_GET_DMAFD buffer i = planeFileDescriptor buffer.memory i := by
    intro i
    unfold GST_BUFFER_GET_DMAFD planeFileDescriptor gst_buffer_n_memory gst_buffer_peek_memory
    by_cases hi : i < buffer.memory.length
    · rw [if_pos hi]
      obtain ⟨r, hr⟩ : ∃ r, buffer.memory[i]? = some r :=
        ⟨buffer.memory[i], List.getElem?_eq_getElem hi⟩
      rw [hr]
      cases r <;> rfl
    · rw [if_neg hi]
      have hnone : buffer.memory[i]? = none := List.getElem?_eq_none (Nat.le_of_not_lt hi)
      rw [hnone]
      cases hm : buffer.memory with
      | nil => rfl
      | cons r rest => cases r <;> simp [gst_dmabuf_memory_get_fd]
  have h1 : GstDmaVideoBuffer.attribs buffer m =
      [EGL_WIDTH, toInt32 m.width, EGL_HEIGHT, toInt32 m.height,
       EGL_LINUX_DRM_FOURCC_EXT, gst_video_format_to_drm_code m.format] ++
      (List.range m.n_planes).flatMap (planeTriple buffer m) ++ [EGL_NONE] := by
    rcases hN with h | h | h <;>
    simp [GstDmaVideoBuffer.attribs, h, List.range_succ, List.flatMap, planeTriple, planeKeys,
      hfd]
  have h3 : attribKeys (GstDmaVideoBuffer.attribs buffer m) =
      [EGL_WIDTH, EGL_HEIGHT, EGL_LINUX_DRM_FOURCC_EXT] ++
      (List.range m.n_planes).flatMap planeKeys ++ [EGL_NONE] := by
    rcases hN with h | h | h <;>
    simp [GstDmaVideoBuffer.attribs, h, List.range_succ, List.flatMap, planeKeys, attribKeys]
  have hle : m.n_planes ≤ 3 := by omega
  have hval : ∀ i, i < m.n_planes →
      (GstDmaVideoBuffer.attribs buffer m)[7 + 6 * i]? =
        some (planeFileDescriptor buffer.memory i) ∧
      (GstDmaVideoBuffer.attribs buffer m)[9 + 6 * i]? = some (toInt32 (m.offset i)) ∧
      (GstDmaVideoBuffer.attribs buffer m)[11 + 6 * i]? = some (m.stride i) := by
    intro i hi
    rw [h1]
    exact blockList_values EGL_WIDTH (toInt32 m.width) EGL_HEIGHT (toInt32 m.height)
      EGL_LINUX_DRM_FOURCC_EXT (gst_video_format_to_drm_code m.format) EGL_NONE
      (fun j => (planeKeys j).getD 0 0) (fun j => (planeKeys j).getD 1 0)
      (fun j => (planeKeys j).getD 2 0) (planeFileDescriptor buffer.memory)
      (fun j => toInt32 (m.offset j)) m.stride (planeTriple buffer m) m.n_planes i hle hi
      (planeTriple_entries buffer m)
  refine ⟨h1, ?_, h3, ?_, ?_, ?_, ?_⟩
  · rcases hN with h | h | h <;> simp [GstDmaVideoBuffer.attribs, h]
  · rw [h3]
    exact hkeys m.n_planes hN
  · intro i hi fd hfd
    rw [(hval i hi).1]
    unfold planeFileDescriptor
    rw [hfd]
  · intro i hi hlen fd hfd
    rw [(hval i hi).1]
    unfold planeFileDescriptor
    have hnone : buffer.memory[i]? = none := List.getElem?_eq_none hlen
    rw [hnone]
    cases hm : buffer.memory with
    | nil => rw [hm] at hfd; simp at hfd
    | cons r rest =>
      rw [hm] at hfd
      simp at hfd
      subst hfd
      rfl
  · intro i hi
    exact (hval i hi).2

/-- Witness for C5: a two-plane NV12 sample in two dmabuf regions with the
descriptors 7 and 8; the whole attribute list is evaluated as well. -/
theorem c5_attribs_per_plane_witness :
    (exMeta GST_VIDEO_FORMAT_NV12 2).n_planes = 2 ∧
    (GstDmaVideoBuffer.attribs
        { memory := [GstMemory.dmabuf 7, GstMemory.dmabuf 8],
          videoMeta := exMeta GST_VIDEO_FORMAT_NV12 2 }
        (exMeta GST_VIDEO_FORMAT_NV12 2)).length = 7 + 6 * 2 ∧
    (GstDmaVideoBuffer.attribs
        { memory := [GstMemory.dmabuf 7, GstMemory.dmabuf 8],
          videoMeta := exMeta GST_VIDEO_FORMAT_NV12 2 }
        (exMeta GST_VIDEO_FORMAT_NV12 2))[7 + 6 * 1]? = some 8 ∧
    GstDmaVideoBuffer.attribs
        { memory := [GstMemory.dmabuf 7, GstMemory.dmabuf 8],
          videoMeta := exMeta GST_VIDEO_FORMAT_NV12 2 }
        (exMeta GST_VIDEO_FORMAT_NV12 2) =
      [EGL_WIDTH, 640, EGL_HEIGHT, 480, EGL_LINUX_DRM_FOURCC_EXT, DRM_FORMAT_NV12,
       EGL_DMA_BUF_PLANE0_FD_EXT, 7, EGL_DMA_BUF_PLANE0_OFFSET_EXT, 0,
       EGL_DMA_BUF_PLANE0_PITCH_EXT, 640,
       EGL_DMA_BUF_PLANE1_FD_EXT, 8, EGL_DMA_BUF_PLANE1_OFFSET_EXT, 307200,
       EGL_DMA_BUF_PLANE1_PITCH_EXT, 640, EGL_NONE] :=
  ⟨rfl,
   (c5_attribs_per_plane
      { memory := [GstMemory.dmabuf 7, GstMemory.dmabuf 8],
        videoMeta := exMeta GST_VIDEO_FORMAT_NV12 2 }
      (exMeta GST_VIDEO_FORMAT_NV12 2) (Or.inr (Or.inl rfl))).2.1,
   (c5_attribs_per_plane
      { memory := [GstMemory.dmabuf 7, GstMemory.dmabuf 8],
        videoMeta := exMeta GST_VIDEO_FORMAT_NV12 2 }
      (exMeta GST_VIDEO_FORMAT_NV12 2) (Or.inr (Or.inl rfl))).2.2.2.2.1 1 (by decide) 8 rfl,
   by decide⟩

/-! ### Planar Buffer Adapter -/

/-- The loop of `map` makes one mapping call per plane, in plane order. -/
theorem mapLoop_trace (f : Nat → Nat → Option PlaneMapping) (flags : Nat)
    (st0 : MapLoopState) (n : Nat) :
    (forLoop (GstVideoBuffer.mapBody f flags) st0 n).trace =
      st0.trace ++ (List.range n).map fun i => Event.videoMetaMap i flags := by
  induction n with
  | zero => simp [forLoop]
  | succ k ih =>
    simp only [forLoop, List.range_succ, List.map_append, List.map_cons, List.map_nil]
    rw [← List.append_assoc, ← ih]
    unfold GstVideoBuffer.mapBody
    cases f k flags <;> rfl

/-- A round of the loop of `map` leaves the `m_mapInfo` of other planes alone. -/
theorem mapBody_mapInfo_other (f : Nat → Nat → Option PlaneMapping) (flags : Nat)
    (st : MapLoopState) (k i : Nat) (h : i ≠ k) :
    (GstVideoBuffer.mapBody f flags k st).m_mapInfo i = st.m_mapInfo i := by
  unfold GstVideoBuffer.mapBody
  cases f k flags <;> simp [setAt, h]

/-- After the loop of `map`, `size` is the `int` sum of the recorded sizes. -/
theorem mapLoop_size (f : Nat → Nat → Option PlaneMapping) (flags : Nat)
    (st0 : MapLoopState) (h0 : st0.size = 0) (n : Nat) :
    (forLoop (GstVideoBuffer.mapBody f flags) st0 n).size =
      toInt32 (mappedSize (forLoop (GstVideoBuffer.mapBody f flags) st0 n).m_mapInfo n) := by
  induction n with
  | zero => simp [forLoop, mappedSize, h0, toInt32]
  | succ k ih =>
    have hsum : mappedSize
        (forLoop (GstVideoBuffer.mapBody f flags) st0 (k + 1)).m_mapInfo (k + 1) =
        mappedSize (forLoop (GstVideoBuffer.mapBody f flags) st0 k).m_mapInfo k +
          (((forLoop (GstVideoBuffer.mapBody f flags) st0 (k + 1)).m_mapInfo k).size : Int) := by
      simp only [mappedSize, List.range_succ, List.map_append, List.sum_append, List.map_cons,
        List.map_nil, List.sum_cons, List.sum_nil, add_zero]
      congr 2
      apply List.map_congr_left
      intro i hi
      have hik : i ≠ k := Nat.ne_of_lt (List.mem_range.mp hi)
      simp only [forLoop]
      rw [mapBody_mapInfo_other f flags _ k i hik]
    rw [hsum]
    have hstep : (forLoop (GstVideoBuffer.mapBody f flags) st0 (k + 1)).size =
        toInt32 ((forLoop (GstVideoBuffer.mapBody f flags) st0 k).size +
          (((forLoop (GstVideoBuffer.mapBody f flags) st0 (k + 1)).m_mapInfo k).size : Int)) := by
      simp only [forLoop]
      unfold GstVideoBuffer.mapBody
      cases f k flags <;> rfl
    rw [hstep, ih]
    unfold toInt32
    omega

/-- After the loop of `map`, the `m_mapInfo` of each plane that the mapping
facility mapped is what the facility returned for it. -/
theorem mapLoop_mapInfo (f : Nat → Nat → Option PlaneMapping) (flags : Nat)
    (st0 : MapLoopState) (n i : Nat) (hi : i < n) (p : PlaneMapping)
    (hp : f i flags = some p) :
    (forLoop (GstVideoBuffer.mapBody f flags) st0 n).m_mapInfo i = p.info := by
  induction n with
  | zero => omega
  | succ k ih =>
    by_cases hik : i = k
    · subst hik
      simp [forLoop, GstVideoBuffer.mapBody, hp, setAt]
    · simp only [forLoop]
      rw [mapBody_mapInfo_other f flags _ k i hik]
      exact ih (by omega)

/-- The loop of `unmap` makes one unmapping call per plane, in plane order. -/
theorem unmapLoop_trace (n : Nat) :
    forLoop (fun i t => t ++ [Event.videoMetaUnmap i]) [] n =
      (List.range n).map Event.videoMetaUnmap := by
  induction n with
  | zero => rfl
  | succ k ih => simp [forLoop, ih, List.range_succ]

/-- C6: `map(mode)` takes its failure return exactly when the adapter is
already mapped or `mode` is `NotMapped`. In that case it returns 0, makes no
mapping call, and leaves the adapter (so `mapMode()`) and the caller's
`numBytes`, `bytesPerLine` and `data` as they were. In every other case the
call does map: `mapMode()` changes from `NotMapped` to `mode`, one mapping call
is made per plane, and the plane count is returned. -/
theorem c6_map_fails_without_effect (self : GstVideoBuffer)
    (gst_video_meta_map : Nat → Nat → Option PlaneMapping)
    (mode : MapMode) (out : MapOutputs) :
    ((mode = MapMode.NotMapped ∨ self.mapMode ≠ MapMode.NotMapped) →
      (self.map gst_video_meta_map mode out).ret = 0 ∧
      (self.map gst_video_meta_map mode out).trace = [] ∧
      (self.map gst_video_meta_map mode out).self = self ∧
      (self.map gst_video_meta_map mode out).out = out) ∧
    (¬ (mode = MapMode.NotMapped ∨ self.mapMode ≠ MapMode.NotMapped) →
      (self.map gst_video_meta_map mode out).self.mapMode = mode ∧
      (self.map gst_video_meta_map mode out).self.mapMode ≠ self.mapMode ∧
      (self.map gst_video_meta_map mode out).ret = toInt32 self.m_videoMeta.n_planes ∧
      (self.map gst_video_meta_map mode out).trace =
        (List.range self.m_videoMeta.n_planes).map
          fun i => Event.videoMetaMap i (GstVideoBuffer.mapFlags mode)) := by
  constructor
  · intro h
    have h' : mode = MapMode.NotMapped ∨ self.m_mode ≠ MapMode.NotMapped := h
    simp [GstVideoBuffer.map, h']
  · intro h
    have h' : ¬ (mode = MapMode.NotMapped ∨ self.m_mode ≠ MapMode.NotMapped) := h
    have hm : self.m_mode = MapMode.NotMapped := by
      by_contra hc; exact h' (Or.inr hc)
    have hmode : mode ≠ MapMode.NotMapped := fun hc => h' (Or.inl hc)
    have hnew : (self.map gst_video_meta_map mode out).self.mapMode = mode := by
      simp [GstVideoBuffer.map, h', GstVideoBuffer.mapMode]
    refine ⟨hnew, ?_, ?_, ?_⟩
    · rw [hnew]
      show mode ≠ self.m_mode
      rw [hm]
      exact hmode
    · simp [GstVideoBuffer.map, h']
    · simp only [GstVideoBuffer.map, if_neg h']
      rw [mapLoop_trace]
      rfl

/-- Witness for C6: `map(ReadOnly)` on an adapter that is already mapped. -/
theorem c6_map_fails_without_effect_witness :
    (exPlanar 2 MapMode.ReadWrite).mapMode ≠ MapMode.NotMapped ∧
    ((exPlanar 2 MapMode.ReadWrite).map exPlaneMap MapMode.ReadOnly exOutputs).ret = 0 ∧
    ((exPlanar 2 MapMode.ReadWrite).map exPlaneMap MapMode.ReadOnly exOutputs).trace = [] :=
  ⟨by decide,
   ((c6_map_fails_without_effect (exPlanar 2 MapMode.ReadWrite) exPlaneMap MapMode.ReadOnly
      exOutputs).1 (Or.inr (by decide))).1,
   ((c6_map_fails_without_effect (exPlanar 2 MapMode.ReadWrite) exPlaneMap MapMode.ReadOnly
      exOutputs).1 (Or.inr (by decide))).2.1⟩

/-- A sum of recorded sizes is not negative. -/
theorem mappedSize_nonneg (m : Nat → GstMapInfo) (n : Nat) : 0 ≤ mappedSize m n := by
  induction n with
  | zero => simp [mappedSize]
  | succ k ih =>
    have hk : mappedSize m (k + 1) = mappedSize m k + ((m k).size : Int) := by
      simp [mappedSize, List.range_succ]
    rw [hk]
    omega

/-- C7: on an unmapped adapter over a sample with n planes, `map(mode)` with
`mode` one of ReadOnly, WriteOnly, ReadWrite makes one mapping call for each
plane 0..n-1 in order, returns n (as an `int`; exactly n for n up to the 4
planes a sample can have), stores in `*numBytes` the `int` sum of the sizes
recorded for those n planes (exactly their sum when it is below 2^31), the
recorded size of a plane being the one the mapping facility returned, and
leaves `mapMode()` equal to `mode`. The `unmap()` that follows makes one
unmapping call for each of the same n planes and resets `mapMode()` to
`NotMapped`; a second `unmap()` makes no call and changes nothing. -/
theorem c7_map_then_unmap (self : GstVideoBuffer)
    (gst_video_meta_map : Nat → Nat → Option PlaneMapping)
    (mode : MapMode) (out : MapOutputs)
    (hm : self.mapMode = MapMode.NotMapped)
    (hmode : mode = MapMode.ReadOnly ∨ mode = MapMode.WriteOnly ∨ mode = MapMode.ReadWrite) :
    (self.map gst_video_meta_map mode out).trace =
      ((List.range self.m_videoMeta.n_planes).map
        fun i => Event.videoMetaMap i (GstVideoBuffer.mapFlags mode)) ∧
    (self.map gst_video_meta_map mode out).ret = toInt32 self.m_videoMeta.n_planes ∧
    (self.m_videoMeta.n_planes ≤ 4 →
      (self.map gst_video_meta_map mode out).ret = self.m_videoMeta.n_planes) ∧
    (self.map gst_video_meta_map mode out).out.numBytes =
      toInt32 (mappedSize (self.map gst_video_meta_map mode out).self.m_mapInfo
        self.m_videoMeta.n_planes) ∧
    (mappedSize (self.map gst_video_meta_map mode out).self.m_mapInfo
        self.m_videoMeta.n_planes < 2147483648 →
      (self.map gst_video_meta_map mode out).out.numBytes =
        mappedSize (self.map gst_video_meta_map mode out).self.m_mapInfo
          self.m_videoMeta.n_planes) ∧
    (∀ i, i < self.m_videoMeta.n_planes → ∀ p,
      gst_video_meta_map i (GstVideoBuffer.mapFlags mode) = some p →
      (self.map gst_video_meta_map mode out).self.m_mapInfo i = p.info) ∧
    (self.map gst_video_meta_map mode out).self.mapMode = mode ∧
    (self.map gst_video_meta_map mode out).self.unmap.2 =
      (List.range self.m_videoMeta.n_planes).map Event.videoMetaUnmap ∧
    (self.map gst_video_meta_map mode out).self.unmap.1.mapMode = MapMode.NotMapped ∧
    (self.map gst_video_meta_map mode out).self.unmap.1.unmap =
      ((self.map gst_video_meta_map mode out).self.unmap.1, []) := by
  have hm' : self.m_mode = MapMode.NotMapped := hm
  have hne : mode ≠ MapMode.NotMapped := by
    rcases hmode with h | h | h <;> rw [h] <;> decide
  have hc : ¬ (mode = MapMode.NotMapped ∨ self.m_mode ≠ MapMode.NotMapped) := by
    intro h
    rcases h with h | h
    · exact hne h
    · exact h hm'
  have hbytes : (self.map gst_video_meta_map mode out).out.numBytes =
      toInt32 (mappedSize (self.map gst_video_meta_map mode out).self.m_mapInfo
        self.m_videoMeta.n_planes) := by
    simp only [GstVideoBuffer.map, if_neg hc]
    exact mapLoop_size gst_video_meta_map _ _ rfl _
  have hret : (self.map gst_video_meta_map mode out).ret =
      toInt32 self.m_videoMeta.n_planes := by
    simp [GstVideoBuffer.map, hc]
  have hmodeAfter : (self.map gst_video_meta_map mode out).self.m_mode = mode := by
    simp [GstVideoBuffer.map, hc]
  have hplanes : (self.map gst_video_meta_map mode out).self.m_videoMeta = self.m_videoMeta := by
    simp [GstVideoBuffer.map, hc]
  refine ⟨?_, hret, ?_, hbytes, ?_, ?_, hmodeAfter, ?_, rfl, ?_⟩
  · simp only [GstVideoBuffer.map, if_neg hc]
    rw [mapLoop_trace]
    rfl
  · intro h4
    rw [hret]
    unfold toInt32
    omega
  · intro hlt
    rw [hbytes]
    have h0 := mappedSize_nonneg (self.map gst_video_meta_map mode out).self.m_mapInfo
      self.m_videoMeta.n_planes
    unfold toInt32
    omega
  · intro i hi p hp
    simp only [GstVideoBuffer.map, if_neg hc]
    exact mapLoop_mapInfo gst_video_meta_map _ _ _ i hi p hp
  · have hmapped : (self.map gst_video_meta_map mode out).self.m_mode ≠ MapMode.NotMapped := by
      rw [hmodeAfter]; exact hne
    simp only [GstVideoBuffer.unmap, if_pos hmapped, hplanes]
    exact unmapLoop_trace _
  · simp [GstVideoBuffer.unmap]

/-- Witness for C7: `map(ReadOnly)` on an unmapped two-plane adapter. -/
theorem c7_map_then_unmap_witness :
    (exPlanar 2 MapMode.NotMapped).mapMode = MapMode.NotMapped ∧
    ((exPlanar 2 MapMode.NotMapped).map exPlaneMap MapMode.ReadOnly exOutputs).trace =
      [Event.videoMetaMap 0 1, Event.videoMetaMap 1 1] ∧
    ((exPlanar 2 MapMode.NotMapped).map exPlaneMap MapMode.ReadOnly exOutputs).ret = 2 ∧
    ((exPlanar 2 MapMode.NotMapped).map exPlaneMap MapMode.ReadOnly exOutputs).out.numBytes =
      460800 :=
  ⟨rfl,
   (c7_map_then_unmap (exPlanar 2 MapMode.NotMapped) exPlaneMap MapMode.ReadOnly exOutputs
      rfl (Or.inl rfl)).1,
   (c7_map_then_unmap (exPlanar 2 MapMode.NotMapped) exPlaneMap MapMode.ReadOnly exOutputs
      rfl (Or.inl rfl)).2.1,
   by decide⟩

/-! ### Pipeline Controller -/

/-- C9 (the code at the failing input): on a controller that was never started
`stop()` posts end-of-stream on the bus and then waits on a future that has no
shared state, which is undefined behaviour; on a controller that was started
and stopped it posts end-of-stream and waits again. Neither is a no-op. -/
theorem c9_stop_when_not_running_posts_eos :
    (exSource false false).worker_handle = none ∧
    (exSource false false).aliveWorkers = 0 ∧
    (exSource false false).stop.trace = [Event.busPostEos, Event.futureWait] ∧
    (exSource false false).stop.final.isNone = true ∧
    exStopped.aliveWorkers = 0 ∧
    exStopped.stop.trace = [Event.busPostEos, Event.futureWait] := by
  decide

/-- C10 (the code at the failing input): with `EGLImageSupported` set,
`start()` sets "device" and then calls `g_object_set` with the name
"io-mode  " (two trailing blanks), which is not a property of the element, so
its "io-mode" keeps its old value 0; with the name "io-mode" the same call
sets it to 4. -/
theorem c10_io_mode_is_left_untouched :
    (exSource true false).start.trace =
      [Event.gObjectSet "device" (GValue.str "/dev/video0"),
       Event.gObjectSet "io-mode  " (GValue.int 4), Event.asyncRun] ∧
    (exSource true false).start.final.map (fun s => s.v4l2src) =
      some { device := "/dev/video0", io_mode := 0 } ∧
    g_object_set { device := "/dev/video0", io_mode := 0 } "io-mode" (GValue.int 4) =
      { device := "/dev/video0", io_mode := 4 } := by
  decide

/-! ### Sample Bridge -/

/-- C11 (as stated, refuted): in a run of `on_new_sample` the statements are
not lock, set flag, unlock, emit: `frameReady` is emitted before the lock is
released, so it is emitted while the lock is held. -/
theorem c11_frame_ready_emitted_under_lock :
    ((exSource false false).on_new_sample_steps.map Prod.fst ≠
      [BridgeStep.lock, BridgeStep.setReady, BridgeStep.unlock, BridgeStep.emitFrameReady]) ∧
    emitsWhileLocked false ((exSource false false).on_new_sample_steps.map Prod.fst) = true ∧
    (exSource false false).on_new_sample.trace =
      [Event.mutexLock, Event.frameReady, Event.mutexUnlock] := by
  decide

/-- C11 (amended): in every run of `on_new_sample` the statements are, in
order: acquire the lock, set the Ready Flag to true, emit `frameReady`, release
the lock; the flag is already true when `frameReady` is emitted, the emission
happens while the lock is held, and the callback returns `GST_FLOW_OK` with
nothing but the flag changed. -/
theorem c11_bridge_sequence (self : V4L2Source) :
    self.on_new_sample_steps.map Prod.fst =
      [BridgeStep.lock, BridgeStep.setReady, BridgeStep.emitFrameReady, BridgeStep.unlock] ∧
    emitsWhileLocked false (self.on_new_sample_steps.map Prod.fst) = true ∧
    (∀ p ∈ self.on_new_sample_steps, p.1 = BridgeStep.emitFrameReady → p.2.ready = true) ∧
    self.on_new_sample.trace =
      (self.on_new_sample_steps.map Prod.fst).filterMap BridgeStep.toEvent ∧
    self.on_new_sample.final = some (GST_FLOW_OK, { self with ready := true }) ∧
    (self.on_new_sample_steps.map Prod.snd).getLast? = some { self with ready := true } := by
  refine ⟨rfl, rfl, ?_, rfl, rfl, rfl⟩
  intro p hp he
  simp only [V4L2Source.on_new_sample_steps, List.mem_cons, List.mem_singleton,
    List.mem_nil_iff, or_false] at hp
  rcases hp with rfl | rfl | rfl | rfl
  · exact absurd he (fun h => BridgeStep.noConfusion h)
  · rfl
  · rfl
  · rfl

/-! ### Layout codes of the planar 4:2:0 formats -/

/-- C12 (the code at the failing input): for YV12, the planar 4:2:0 format with
the V plane first, `gst_video_format_to_drm_code` returns `DRM_FORMAT_YVU422`
(fourcc YV16, the 4:2:2 layout) and not `DRM_FORMAT_YVU420` (fourcc YV12);
I420 and I420_10LE do map to `DRM_FORMAT_YUV420`. -/
theorem c12_yv12_maps_to_422_code :
    gst_video_format_to_drm_code GST_VIDEO_FORMAT_YV12 = DRM_FORMAT_YVU422 ∧
    DRM_FORMAT_YVU422 = fourcc_code 'Y' 'V' '1' '6' ∧
    DRM_FORMAT_YVU420 = fourcc_code 'Y' 'V' '1' '2' ∧
    gst_video_format_to_drm_code GST_VIDEO_FORMAT_YV12 ≠ DRM_FORMAT_YVU420 ∧
    gst_video_format_to_drm_code GST_VIDEO_FORMAT_I420 = DRM_FORMAT_YUV420 ∧
    gst_video_format_to_drm_code GST_VIDEO_FORMAT_I420_10LE = DRM_FORMAT_YUV420 ∧
    gst_video_format_to_qvideoformat GST_VIDEO_FORMAT_YV12 = Format_YV12 := by
  decide

end V4L2
